import Mathlib

/-!
Verification of the `DFRobot_AHT20_MicroPython` repository: a driver for the
AHT20 temperature/humidity sensor over I2C (`src/DFRobot_AHT20.py`).

The driver is shallowly embedded: Python integers become `Nat` with explicit
bit operations; the two Python float fields `_humidity` and `_temperature`
become `ℚ` (all float operations the driver performs — products of a 20-bit
integer with 100.0 or 200.0, division by the power of two 0x100000, and
subtraction of 50 — are exact in IEEE double precision, so the rational
semantics coincides with the float semantics on every reachable value);
the I2C bus becomes an oracle assigning a result to each successive read
and write; Python exceptions become `Except PyErr`.
-/

namespace AHT20

/-! ## CRC-8 (`_check_crc8`, `DFRobot_AHT20.py` lines 141–161) -/

/-- One MSB-first shift step of the source's CRC loop (lines 150–156):
`if crc & 0x80: crc <<= 1; crc ^= 0x31 else: crc <<= 1`.  Note the source
does not truncate to 8 bits inside the loop. -/
def crcStep (crc : Nat) : Nat :=
  if crc &&& 0x80 ≠ 0 then (crc <<< 1) ^^^ 0x31 else crc <<< 1

/-- Processing of one data byte (lines 148–157): `crc ^= data[pos]` followed
by eight shift steps. -/
def crcByte (crc b : Nat) : Nat := crcStep^[8] (crc ^^^ b)

/-- The CRC value the source computes (lines 144–158): loop over `data`
starting from 0xFF, then `crc &= 0xFF`. -/
def crc8_compute (data : List Nat) : Nat := (data.foldl crcByte 0xFF) &&& 0xFF

/-- `_check_crc8(crc8, data)` (lines 141–161): compares the candidate byte
against the computed CRC. -/
def _check_crc8 (crc8 : Nat) (data : List Nat) : Bool :=
  crc8 == crc8_compute data

/-- Reference CRC-8 step, stated from the spec's description: initial value
0xFF, polynomial 0x31, MSB-first, with the state truncated to 8 bits at
every step (the textbook bytewise CRC-8 update). -/
def refCrcStep (crc : Nat) : Nat :=
  if crc &&& 0x80 ≠ 0 then ((crc <<< 1) ^^^ 0x31) &&& 0xFF else (crc <<< 1) &&& 0xFF

/-- Reference CRC-8 of a byte sequence: bytes in order, bits MSB-first. -/
def refCrc8 (data : List Nat) : Nat :=
  data.foldl (fun c b => refCrcStep^[8] (c ^^^ b)) 0xFF

/-! ## Command constants (`DFRobot_AHT20.py` lines 23–42) -/

/-- `CMD_INIT = '\xBE\x08\x00'` (line 26). -/
def CMD_INIT : List Nat := [0xBE, 0x08, 0x00]

/-- `CMD_MEASUREMENT = b'\xAC\x33\x00'` (line 30). -/
def CMD_MEASUREMENT : List Nat := [0xAC, 0x33, 0x00]

/-- `CMD_MEASUREMENT_DATA_LEN = 6` (line 34). -/
def CMD_MEASUREMENT_DATA_LEN : Nat := 6

/-- `CMD_MEASUREMENT_DATA_CRC_LEN = 7` (line 36). -/
def CMD_MEASUREMENT_DATA_CRC_LEN : Nat := 7

/-- `CMD_SOFT_RESET = b'\xBA'` (line 38). -/
def CMD_SOFT_RESET : List Nat := [0xBA]

/-- `CMD_STATUS = b'\x71'` (line 42). -/
def CMD_STATUS : List Nat := [0x71]

/-! ## Bus oracle and driver state

The I2C bus is modelled as an oracle: the k-th `readfrom` call returns
`readAt k` (`none` models the transport raising `OSError`), and the k-th
`writeto` call succeeds iff `writeAt k = true` (otherwise it raises).
The driver state carries the two float fields `_humidity` and
`_temperature` (class attributes, initial value `0.0`, lines 44–45),
the oracle, the counters of reads and writes performed so far, and a log
of the byte sequences successfully written to the bus. -/

/-- Python exceptions that can arise in the modelled code. -/
inductive PyErr where
  /-- `OSError` raised by the I2C transport. -/
  | osError : PyErr
  /-- `IndexError` raised by indexing past the end of a sequence. -/
  | indexError : PyErr
deriving DecidableEq, Repr

/-- The bus oracle: behaviour of each successive read and write. -/
structure Bus where
  /-- Bytes returned by the k-th `readfrom`; `none` = transport raises. -/
  readAt : Nat → Option (List Nat)
  /-- Whether the k-th `writeto` succeeds; `false` = transport raises. -/
  writeAt : Nat → Bool

/-- Driver state: the `DFRobot_AHT20` object's fields plus the bus. -/
structure DriverState where
  /-- Bus oracle. -/
  bus : Bus
  /-- Number of `readfrom` calls performed. -/
  nr : Nat
  /-- Number of `writeto` calls performed. -/
  nw : Nat
  /-- Log of commands successfully written to the bus, in order. -/
  writes : List (List Nat)
  /-- `self._humidity` (initially `0.0`, line 44). -/
  _humidity : ℚ
  /-- `self._temperature` (initially `0.0`, line 45). -/
  _temperature : ℚ

/-- A freshly constructed driver object attached to bus `b`
(`__init__`, lines 47–49; `_humidity = _temperature = 0.0`). -/
def mkDriver (b : Bus) : DriverState :=
  { bus := b, nr := 0, nw := 0, writes := [], _humidity := 0, _temperature := 0 }

/-- `self._i2c.writeto(self._addr, cmd)`: consumes one write slot of the
oracle; raises `OSError` when the oracle says the write fails. -/
def i2c_writeto (s : DriverState) (cmd : List Nat) : Except PyErr DriverState :=
  if s.bus.writeAt s.nw then
    .ok { s with nw := s.nw + 1, writes := s.writes ++ [cmd] }
  else
    .error .osError

/-- `self._i2c.readfrom(self._addr, len)`: consumes one read slot of the
oracle; raises `OSError` when the oracle has no bytes for this read. -/
def i2c_readfrom (s : DriverState) (len : Nat) : Except PyErr (List Nat × DriverState) :=
  match s.bus.readAt s.nr with
  | some bs => .ok (bs, { s with nr := s.nr + 1 })
  | none => .error .osError

/-- Python indexing `l[i]` on a list: raises `IndexError` out of range. -/
def pyIndex (l : List Nat) (i : Nat) : Except PyErr Nat :=
  match l.get? i with
  | some v => .ok v
  | none => .error .indexError

/-! ## Driver methods (`DFRobot_AHT20.py` lines 51–197)

`time.sleep` calls are modelled as no-ops: they do not touch driver or
bus state. -/

/-- `_write_command` (lines 196–197). -/
def _write_command (s : DriverState) (cmd : List Nat) : Except PyErr DriverState :=
  i2c_writeto s cmd

/-- `_read_data` (lines 188–194): tries the bus read and catches any
exception, returning the empty sequence instead. -/
def _read_data (s : DriverState) (len : Nat) : List Nat × DriverState :=
  match i2c_readfrom s len with
  | .ok r => r
  | .error _ => ([], s)

/-- `_get_status_data` (lines 180–186): writes the status command, reads
one byte; an empty read result is turned into status `0`. -/
def _get_status_data (s : DriverState) : Except PyErr (Nat × DriverState) := do
  let s ← i2c_writeto s CMD_STATUS
  let (status, s) := _read_data s 1
  match status with
  | b :: _ => return (b, s)
  | [] => return (0, s)

/-- `_ready` (lines 163–167): bit 3 (0x08) of the status byte. -/
def _ready (s : DriverState) : Except PyErr (Bool × DriverState) := do
  let (status, s) ← _get_status_data s
  if status &&& 0x08 ≠ 0 then
    return (true, s)
  else
    return (false, s)

/-- `_init` (lines 169–178): returns success if the ready bit is already
set; otherwise writes `CMD_INIT`, waits, and re-checks the status. -/
def _init (s : DriverState) : Except PyErr (Bool × DriverState) := do
  let (status, s) ← _get_status_data s
  if status &&& 0x08 ≠ 0 then
    return (true, s)
  let s ← _write_command s CMD_INIT
  let (status, s) ← _get_status_data s
  if status &&& 0x08 ≠ 0 then
    return (true, s)
  return (false, s)

/-- `begin` (lines 51–60). -/
def begin (s : DriverState) : Except PyErr (Bool × DriverState) := do
  let (b, s) ← _init s
  if b ≠ true then
    return (false, s)
  return (true, s)

/-- `reset` (lines 62–68). -/
def reset (s : DriverState) : Except PyErr DriverState :=
  _write_command s CMD_SOFT_RESET

/-- Humidity conversion (lines 100–101): `temp = raw * 100.0;
self._humidity = temp / 0x100000`.  Exact in IEEE doubles for
`raw < 2^20`, hence modelled in ℚ. -/
def decode_humidity (raw : Nat) : ℚ := (raw * 100 : ℚ) / 0x100000

/-- Temperature conversion (lines 108–109): `temp = raw * 200.0;
self._temperature = temp / 0x100000 - 50`.  Exact in IEEE doubles for
`raw < 2^20`, hence modelled in ℚ. -/
def decode_temperature (raw : Nat) : ℚ := (raw * 200 : ℚ) / 0x100000 - 50

/-- `start_measurement_ready` (lines 70–110), with the source's statement
order preserved: readiness check, measurement command, frame read, busy
check on byte 0, optional CRC check, then field assembly — humidity is
stored before bytes 4 and 5 are accessed, as in the source. -/
def start_measurement_ready (s : DriverState) (crc_en : Bool) :
    Except PyErr (Bool × DriverState) := do
  let recv_len := CMD_MEASUREMENT_DATA_LEN
  let (r, s) ← _ready s
  if r = false then
    return (false, s)
  let recv_len := if crc_en then CMD_MEASUREMENT_DATA_CRC_LEN else recv_len
  let s ← _write_command s CMD_MEASUREMENT
  let (l_data, s) := _read_data s recv_len
  let b0 ← pyIndex l_data 0
  if b0 &&& 0x80 ≠ 0 then
    return (false, s)
  if crc_en then
    let b6 ← pyIndex l_data 6
    if _check_crc8 b6 (l_data.take 6) = false then
      return (false, s)
  let b1 ← pyIndex l_data 1
  let b2 ← pyIndex l_data 2
  let b3 ← pyIndex l_data 3
  let temp := b1
  let temp := temp <<< 8
  let temp := temp ||| b2
  let temp := temp <<< 4
  let temp := temp ||| (b3 >>> 4)
  let s := { s with _humidity := decode_humidity (temp &&& 0xFFFFF) }
  let b3t ← pyIndex l_data 3
  let b4 ← pyIndex l_data 4
  let b5 ← pyIndex l_data 5
  let temp := b3t &&& 0x0F
  let temp := temp <<< 8
  let temp := temp ||| b4
  let temp := temp <<< 8
  let temp := temp ||| b5
  let s := { s with _temperature := decode_temperature (temp &&& 0xFFFFF) }
  return (true, s)

/-- `get_temperature_C` (lines 123–130). -/
def get_temperature_C (s : DriverState) : ℚ := s._temperature

/-- `get_humidity_RH` (lines 132–139). -/
def get_humidity_RH (s : DriverState) : ℚ := s._humidity

/-! ## Concrete buses used to exhibit runs of the driver -/

/-- A bus whose status byte always reads 0x00 (device never calibrated). -/
def notReadyBus : Bus := ⟨fun _ => some [0x00], fun _ => true⟩

/-- Driver state after one status poll on `notReadyBus`. -/
def notReadyAfter : DriverState :=
  { bus := notReadyBus, nr := 1, nw := 1, writes := [CMD_STATUS],
    _humidity := 0, _temperature := 0 }

/-- A bus whose status byte always reads 0x08 (device calibrated). -/
def calibBus : Bus := ⟨fun _ => some [0x08], fun _ => true⟩

/-- Driver state after one status poll on `calibBus`. -/
def calibAfter : DriverState :=
  { bus := calibBus, nr := 1, nw := 1, writes := [CMD_STATUS],
    _humidity := 0, _temperature := 0 }

/-- A sample measurement frame: status 0x00, then the raw field bytes. -/
def goodFrame : List Nat := [0x00, 0x1B, 0x33, 0x5A, 0x9A, 0x3B]

/-- A bus that reports the device calibrated and then serves `goodFrame`. -/
def goodBus : Bus := ⟨fun k => if k = 0 then some [0x08] else some goodFrame, fun _ => true⟩

/-- Driver state after one successful measurement cycle on `goodBus`:
raw humidity 0x1B335 = 111413, raw temperature 0xA9A3B = 694843. -/
def goodAfter : DriverState :=
  { bus := goodBus, nr := 2, nw := 2, writes := [CMD_STATUS, CMD_MEASUREMENT],
    _humidity := decode_humidity 111413, _temperature := decode_temperature 694843 }

/-- A bus on which every read raises but every write succeeds. -/
def readFailBus : Bus := ⟨fun _ => none, fun _ => true⟩

/-- A bus on which every transaction raises. -/
def allFailBus : Bus := ⟨fun _ => none, fun _ => false⟩

/-! ## Proofs: CRC-8 equivalence with the reference definition -/

lemma and255_eq_mod (a : Nat) : a &&& 255 = a % 256 := by
  have h : (255 : Nat) = 2 ^ 8 - 1 := by norm_num
  rw [h, Nat.and_pow_two_sub_one_eq_mod]

lemma mask_and128 (a : Nat) : (a &&& 255) &&& 128 = a &&& 128 := by
  have h : (255 : Nat) &&& 128 = 128 := by decide
  rw [Nat.and_assoc, h]

lemma shiftLeft_mask (a : Nat) :
    ((a &&& 255) <<< 1) &&& 255 = (a <<< 1) &&& 255 := by
  apply Nat.eq_of_testBit_eq
  intro i
  simp only [Nat.testBit_and, Nat.testBit_shiftLeft]
  have h : (255 : Nat) = 2 ^ 8 - 1 := by norm_num
  rw [h]
  simp only [Nat.testBit_two_pow_sub_one]
  by_cases hi : i < 8
  · by_cases h1 : 1 ≤ i
    · have : i - 1 < 8 := by omega
      simp [h1, hi, this]
    · simp [show ¬ (1 ≤ i) from h1]
  · simp [hi]

lemma shiftLeft_xor_mask (a : Nat) :
    (((a &&& 255) <<< 1) ^^^ 0x31) &&& 255 = ((a <<< 1) ^^^ 0x31) &&& 255 := by
  apply Nat.eq_of_testBit_eq
  intro i
  simp only [Nat.testBit_and, Nat.testBit_xor, Nat.testBit_shiftLeft]
  have h : (255 : Nat) = 2 ^ 8 - 1 := by norm_num
  rw [h]
  simp only [Nat.testBit_two_pow_sub_one]
  by_cases hi : i < 8
  · by_cases h1 : 1 ≤ i
    · have : i - 1 < 8 := by omega
      simp [h1, hi, this]
    · simp [show ¬ (1 ≤ i) from h1]
  · simp [hi]

lemma xor_mask_left (a b : Nat) :
    ((a &&& 255) ^^^ b) &&& 255 = (a ^^^ b) &&& 255 := by
  apply Nat.eq_of_testBit_eq
  intro i
  simp only [Nat.testBit_and, Nat.testBit_xor]
  have h : (255 : Nat) = 2 ^ 8 - 1 := by norm_num
  rw [h]
  simp only [Nat.testBit_two_pow_sub_one]
  by_cases hi : i < 8
  · simp [hi]
  · simp [hi]

/-- The reference step is the source step followed by 8-bit truncation. -/
lemma refCrcStep_eq (a : Nat) : refCrcStep a = crcStep a &&& 255 := by
  unfold refCrcStep crcStep
  by_cases h : a &&& 0x80 ≠ 0 <;> simp [h]

/-- The source step commutes with 8-bit truncation. -/
lemma crcStep_mask (a : Nat) : crcStep (a &&& 255) &&& 255 = crcStep a &&& 255 := by
  unfold crcStep
  have hcond : (a &&& 255) &&& 0x80 = a &&& 0x80 := mask_and128 a
  by_cases h : a &&& 0x80 ≠ 0
  · rw [if_pos (by rw [hcond]; exact h), if_pos h]
    exact shiftLeft_xor_mask a
  · rw [if_neg (by rw [hcond]; exact h), if_neg h]
    exact shiftLeft_mask a

/-- Iterating the reference step equals iterating the source step and
truncating at the end. -/
lemma refCrcStep_iterate (n : Nat) (a : Nat) (hn : 0 < n) :
    refCrcStep^[n] a = crcStep^[n] a &&& 255 := by
  induction n with
  | zero => omega
  | succ m ih =>
    rcases Nat.eq_zero_or_pos m with hm | hm
    · subst hm
      simp [refCrcStep_eq]
    · rw [Function.iterate_succ_apply', Function.iterate_succ_apply',
        ih hm, refCrcStep_eq, crcStep_mask]

/-- The reference step only depends on the low 8 bits of its input. -/
lemma refCrcStep_congr (a b : Nat) (h : a &&& 255 = b &&& 255) :
    refCrcStep a = refCrcStep b := by
  rw [refCrcStep_eq, refCrcStep_eq, ← crcStep_mask a, ← crcStep_mask b, h]

lemma refCrcStep_iterate_congr (n : Nat) (a b : Nat) (hn : 0 < n)
    (h : a &&& 255 = b &&& 255) :
    refCrcStep^[n] a = refCrcStep^[n] b := by
  obtain ⟨m, rfl⟩ : ∃ m, n = m + 1 := ⟨n - 1, by omega⟩
  rw [Function.iterate_succ_apply, Function.iterate_succ_apply,
    refCrcStep_congr a b h]

/-- Folding the source's byte update and truncating at the end equals
folding the reference byte update from the truncated seed. -/
lemma foldl_crcByte_mask (l : List Nat) : ∀ c : Nat,
    (l.foldl crcByte c) &&& 255 =
      l.foldl (fun c b => refCrcStep^[8] (c ^^^ b)) (c &&& 255) := by
  induction l with
  | nil => intro c; simp
  | cons b l ih =>
    intro c
    rw [List.foldl_cons, List.foldl_cons, ih (crcByte c b)]
    congr 1
    unfold crcByte
    rw [← refCrcStep_iterate 8 (c ^^^ b) (by norm_num)]
    exact refCrcStep_iterate_congr 8 _ _ (by norm_num) (xor_mask_left c b).symm

/-- The CRC the source computes is exactly the reference CRC-8. -/
lemma crc8_compute_eq_refCrc8 (data : List Nat) :
    crc8_compute data = refCrc8 data := by
  unfold crc8_compute refCrc8
  rw [foldl_crcByte_mask]
  have h : (255 : Nat) &&& 255 = 255 := by decide
  rw [h]

/-! ## Proofs: field preservation by the bus primitives -/

lemma i2c_writeto_fields {s : DriverState} {cmd : List Nat} {s' : DriverState}
    (h : i2c_writeto s cmd = .ok s') :
    s'._humidity = s._humidity ∧ s'._temperature = s._temperature := by
  unfold i2c_writeto at h
  split at h
  · cases h; exact ⟨rfl, rfl⟩
  · cases h

lemma _read_data_fields {s : DriverState} {n : Nat} :
    (_read_data s n).2._humidity = s._humidity ∧
      (_read_data s n).2._temperature = s._temperature := by
  unfold _read_data i2c_readfrom
  split
  · next r heq =>
    split at heq
    · cases heq; exact ⟨rfl, rfl⟩
    · cases heq
  · exact ⟨rfl, rfl⟩

lemma _get_status_data_fields {s : DriverState} {st : Nat} {s' : DriverState}
    (h : _get_status_data s = .ok (st, s')) :
    s'._humidity = s._humidity ∧ s'._temperature = s._temperature := by
  unfold _get_status_data at h
  cases hw : i2c_writeto s CMD_STATUS with
  | error e => rw [hw] at h; simp [Bind.bind, Except.bind] at h
  | ok s1 =>
    rw [hw] at h
    simp only [Bind.bind, Except.bind] at h
    obtain ⟨h1, h2⟩ := i2c_writeto_fields hw
    have h3 := @_read_data_fields s1 1
    split at h
    · next b rest heq =>
      simp only [pure, Except.pure] at h
      cases h
      exact ⟨h3.1.trans h1, h3.2.trans h2⟩
    · next heq =>
      simp only [pure, Except.pure] at h
      cases h
      exact ⟨h3.1.trans h1, h3.2.trans h2⟩

lemma _ready_fields {s : DriverState} {r : Bool} {s' : DriverState}
    (h : _ready s = .ok (r, s')) :
    s'._humidity = s._humidity ∧ s'._temperature = s._temperature := by
  unfold _ready at h
  cases hg : _get_status_data s with
  | error e => rw [hg] at h; simp [Bind.bind, Except.bind] at h
  | ok p =>
    obtain ⟨st, s1⟩ := p
    rw [hg] at h
    simp only [Bind.bind, Except.bind] at h
    have hf := _get_status_data_fields hg
    split at h <;> (simp only [pure, Except.pure] at h; cases h; exact hf)

/-! ## Proofs: assembling the 20-bit raw fields -/

lemma shiftLeft_or_eq_add (a b k : Nat) (hb : b < 2 ^ k) :
    (a <<< k) ||| b = a * 2 ^ k + b := by
  rw [Nat.shiftLeft_eq, Nat.mul_comm, ← Nat.mul_add_lt_is_or hb a, Nat.mul_comm]

/-- Raw humidity assembly: bytes 1–2 followed by the high nibble of byte 3. -/
lemma assemble_humidity (a1 a2 a3 : Nat)
    (h1 : a1 < 256) (h2 : a2 < 256) (h3 : a3 < 256) :
    ((((a1 <<< 8) ||| a2) <<< 4) ||| (a3 >>> 4)) &&& 0xFFFFF =
      a1 * 4096 + a2 * 16 + a3 / 16 := by
  have e1 : (a1 <<< 8) ||| a2 = a1 * 256 + a2 := shiftLeft_or_eq_add a1 a2 8 h2
  have hnib : a3 >>> 4 = a3 / 16 := by
    rw [Nat.shiftRight_eq_div_pow]
  have hnib_lt : a3 / 16 < 2 ^ 4 := by omega
  have e2 : (((a1 <<< 8) ||| a2) <<< 4) ||| (a3 >>> 4) =
      (a1 * 256 + a2) * 16 + a3 / 16 := by
    rw [e1, hnib]
    have := shiftLeft_or_eq_add (a1 * 256 + a2) (a3 / 16) 4 hnib_lt
    simpa using this
  rw [e2]
  have hlt : (a1 * 256 + a2) * 16 + a3 / 16 < 2 ^ 20 := by omega
  have hmask : (0xFFFFF : Nat) = 2 ^ 20 - 1 := by norm_num
  rw [hmask, Nat.and_pow_two_sub_one_of_lt_two_pow hlt]
  ring

/-- Raw temperature assembly: low nibble of byte 3 followed by bytes 4–5. -/
lemma assemble_temperature (a3 a4 a5 : Nat)
    (h3 : a3 < 256) (h4 : a4 < 256) (h5 : a5 < 256) :
    (((((a3 &&& 0x0F) <<< 8) ||| a4) <<< 8) ||| a5) &&& 0xFFFFF =
      (a3 % 16) * 65536 + a4 * 256 + a5 := by
  have hlow : a3 &&& 0x0F = a3 % 16 := by
    have h15 : (0x0F : Nat) = 2 ^ 4 - 1 := by norm_num
    rw [h15, Nat.and_pow_two_sub_one_eq_mod]
  have e1 : ((a3 &&& 0x0F) <<< 8) ||| a4 = (a3 % 16) * 256 + a4 := by
    rw [hlow]; exact shiftLeft_or_eq_add (a3 % 16) a4 8 h4
  have e2 : ((((a3 &&& 0x0F) <<< 8) ||| a4) <<< 8) ||| a5 =
      ((a3 % 16) * 256 + a4) * 256 + a5 := by
    rw [e1]
    have := shiftLeft_or_eq_add ((a3 % 16) * 256 + a4) a5 8 h5
    simpa using this
  rw [e2]
  have hm : a3 % 16 < 16 := Nat.mod_lt _ (by norm_num)
  have hlt : ((a3 % 16) * 256 + a4) * 256 + a5 < 2 ^ 20 := by omega
  have hmask : (0xFFFFF : Nat) = 2 ^ 20 - 1 := by norm_num
  rw [hmask, Nat.and_pow_two_sub_one_of_lt_two_pow hlt]
  ring

/-! ## Proofs: bounds of the decode formulas -/

lemma decode_humidity_nonneg (r : Nat) : 0 ≤ decode_humidity r := by
  unfold decode_humidity
  positivity

lemma decode_humidity_lt (r : Nat) (h : r < 0x100000) : decode_humidity r < 100 := by
  unfold decode_humidity
  rw [div_lt_iff (by norm_num)]
  have hq : (r : ℚ) < 0x100000 := by exact_mod_cast h
  nlinarith

lemma decode_temperature_ge (r : Nat) : -50 ≤ decode_temperature r := by
  unfold decode_temperature
  have : 0 ≤ (r * 200 : ℚ) / 0x100000 := by positivity
  linarith

lemma decode_temperature_lt (r : Nat) (h : r < 0x100000) :
    decode_temperature r < 150 := by
  unfold decode_temperature
  rw [sub_lt_iff_lt_add, div_lt_iff (by norm_num)]
  have hq : (r : ℚ) < 0x100000 := by exact_mod_cast h
  nlinarith

lemma decode_humidity_mono (r1 r2 : Nat) (h : r1 < r2) :
    decode_humidity r1 < decode_humidity r2 := by
  unfold decode_humidity
  rw [div_lt_div_iff (by norm_num) (by norm_num)]
  have hq : (r1 : ℚ) < r2 := by exact_mod_cast h
  nlinarith

/-! ## Proofs: inversion of `start_measurement_ready` -/

/-- Inversion for `start_measurement_ready`: a `False` result leaves both
fields untouched; a `True` result stores the decode of the two masked
assembled fields. -/
lemma smr_ok_cases {s : DriverState} {crc_en : Bool} {res : Bool} {s' : DriverState}
    (h : start_measurement_ready s crc_en = .ok (res, s')) :
    (res = false ∧ s'._humidity = s._humidity ∧ s'._temperature = s._temperature) ∨
    (res = true ∧ ∃ x y : Nat, s'._humidity = decode_humidity (x &&& 0xFFFFF) ∧
      s'._temperature = decode_temperature (y &&& 0xFFFFF)) := by
  unfold start_measurement_ready at h
  simp only [Bind.bind, Except.bind, pure, Except.pure] at h
  cases hr : _ready s with
  | error e => rw [hr] at h; cases h
  | ok p =>
    obtain ⟨r, s1⟩ := p
    rw [hr] at h
    have hf1 := _ready_fields hr
    cases r with
    | false =>
      simp only [if_pos rfl] at h
      cases h
      exact Or.inl ⟨rfl, hf1⟩
    | true =>
      simp only [if_neg (by decide : ¬ (true = false))] at h
      cases hw : _write_command s1 CMD_MEASUREMENT with
      | error e => rw [hw] at h; simp only [Except.bind] at h; cases h
      | ok s2 =>
        rw [hw] at h
        simp only [Except.bind] at h
        have hf2 : s2._humidity = s1._humidity ∧ s2._temperature = s1._temperature :=
          i2c_writeto_fields hw
        have hf3 := @_read_data_fields s2
          (if crc_en = true then CMD_MEASUREMENT_DATA_CRC_LEN else CMD_MEASUREMENT_DATA_LEN)
        set rd := _read_data s2
          (if crc_en = true then CMD_MEASUREMENT_DATA_CRC_LEN else CMD_MEASUREMENT_DATA_LEN) with hrd
        obtain ⟨ld, s3⟩ := rd
        simp only at h hf3
        have hchain : s3._humidity = s._humidity ∧ s3._temperature = s._temperature :=
          ⟨hf3.1.trans (hf2.1.trans hf1.1), hf3.2.trans (hf2.2.trans hf1.2)⟩
        cases hp0 : pyIndex ld 0 with
        | error e => rw [hp0] at h; simp only [Except.bind] at h; cases h
        | ok b0 =>
          rw [hp0] at h
          simp only [Except.bind] at h
          by_cases hb : b0 &&& 128 ≠ 0
          · rw [if_pos hb] at h
            cases h
            exact Or.inl ⟨rfl, hchain⟩
          · rw [if_neg hb] at h
            cases crc_en with
            | false =>
              simp only [Bool.false_eq_true, if_neg (by decide : ¬ (false = true))] at h
              obtain ⟨b1, hp1⟩ : ∃ b, pyIndex ld 1 = .ok b := by
                cases hq : pyIndex ld 1 with
                | ok b => exact ⟨b, rfl⟩
                | error e =>
                  rw [hq] at h; simp only [Except.bind] at h; exact Except.noConfusion h
              rw [hp1] at h; simp only [Except.bind] at h
              obtain ⟨b2, hp2⟩ : ∃ b, pyIndex ld 2 = .ok b := by
                cases hq : pyIndex ld 2 with
                | ok b => exact ⟨b, rfl⟩
                | error e =>
                  rw [hq] at h; simp only [Except.bind] at h; exact Except.noConfusion h
              rw [hp2] at h; simp only [Except.bind] at h
              obtain ⟨b3, hp3⟩ : ∃ b, pyIndex ld 3 = .ok b := by
                cases hq : pyIndex ld 3 with
                | ok b => exact ⟨b, rfl⟩
                | error e =>
                  rw [hq] at h; simp only [Except.bind] at h; exact Except.noConfusion h
              rw [hp3] at h; simp only [Except.bind] at h
              obtain ⟨b4, hp4⟩ : ∃ b, pyIndex ld 4 = .ok b := by
                cases hq : pyIndex ld 4 with
                | ok b => exact ⟨b, rfl⟩
                | error e =>
                  rw [hq] at h; simp only [Except.bind] at h; exact Except.noConfusion h
              rw [hp4] at h; simp only [Except.bind] at h
              obtain ⟨b5, hp5⟩ : ∃ b, pyIndex ld 5 = .ok b := by
                cases hq : pyIndex ld 5 with
                | ok b => exact ⟨b, rfl⟩
                | error e =>
                  rw [hq] at h; simp only [Except.bind] at h; exact Except.noConfusion h
              rw [hp5] at h; simp only [Except.bind] at h
              cases h
              exact Or.inr ⟨rfl, ((b1 <<< 8 ||| b2) <<< 4) ||| b3 >>> 4,
                (((b3 &&& 15) <<< 8 ||| b4) <<< 8) ||| b5, rfl, rfl⟩
            | true =>
              simp only [if_pos rfl] at h
              cases hp6 : pyIndex ld 6 with
              | error e => rw [hp6] at h; simp only [Except.bind] at h; cases h
              | ok b6 =>
                rw [hp6] at h
                simp only [Except.bind] at h
                by_cases hc : _check_crc8 b6 (List.take 6 ld) = false
                · rw [if_pos hc] at h
                  cases h
                  exact Or.inl ⟨rfl, hchain⟩
                · rw [if_neg hc] at h
                  obtain ⟨b1, hp1⟩ : ∃ b, pyIndex ld 1 = .ok b := by
                    cases hq : pyIndex ld 1 with
                    | ok b => exact ⟨b, rfl⟩
                    | error e =>
                      rw [hq] at h; simp only [Except.bind] at h; exact Except.noConfusion h
                  rw [hp1] at h; simp only [Except.bind] at h
                  obtain ⟨b2, hp2⟩ : ∃ b, pyIndex ld 2 = .ok b := by
                    cases hq : pyIndex ld 2 with
                    | ok b => exact ⟨b, rfl⟩
                    | error e =>
                      rw [hq] at h; simp only [Except.bind] at h; exact Except.noConfusion h
                  rw [hp2] at h; simp only [Except.bind] at h
                  obtain ⟨b3, hp3⟩ : ∃ b, pyIndex ld 3 = .ok b := by
                    cases hq : pyIndex ld 3 with
                    | ok b => exact ⟨b, rfl⟩
                    | error e =>
                      rw [hq] at h; simp only [Except.bind] at h; exact Except.noConfusion h
                  rw [hp3] at h; simp only [Except.bind] at h
                  obtain ⟨b4, hp4⟩ : ∃ b, pyIndex ld 4 = .ok b := by
                    cases hq : pyIndex ld 4 with
                    | ok b => exact ⟨b, rfl⟩
                    | error e =>
                      rw [hq] at h; simp only [Except.bind] at h; exact Except.noConfusion h
                  rw [hp4] at h; simp only [Except.bind] at h
                  obtain ⟨b5, hp5⟩ : ∃ b, pyIndex ld 5 = .ok b := by
                    cases hq : pyIndex ld 5 with
                    | ok b => exact ⟨b, rfl⟩
                    | error e =>
                      rw [hq] at h; simp only [Except.bind] at h; exact Except.noConfusion h
                  rw [hp5] at h; simp only [Except.bind] at h
                  cases h
                  exact Or.inr ⟨rfl, ((b1 <<< 8 ||| b2) <<< 4) ||| b3 >>> 4,
                    (((b3 &&& 15) <<< 8 ||| b4) <<< 8) ||| b5, rfl, rfl⟩

/-! ## Claim theorems -/

/-- C2: whenever `start_measurement_ready` returns `False` — the
not-calibrated check fails, the busy bit (0x80) is set in the frame's
status byte, or (with integrity checking enabled) the CRC-8 comparison
fails — the stored humidity and temperature are exactly what they were
before the call. -/
theorem start_measurement_ready_false_preserves
    (s : DriverState) (crc_en : Bool) (s' : DriverState)
    (h : start_measurement_ready s crc_en = .ok (false, s')) :
    s'._humidity = s._humidity ∧ s'._temperature = s._temperature := by
  rcases smr_ok_cases h with ⟨_, hp⟩ | ⟨hres, _⟩
  · exact hp
  · simp at hres

/-- Witness for C2: a run on a never-calibrated device returns `False`
and preserves the (default) stored reading. -/
theorem start_measurement_ready_false_preserves_witness :
    notReadyAfter._humidity = (mkDriver notReadyBus)._humidity ∧
      notReadyAfter._temperature = (mkDriver notReadyBus)._temperature :=
  start_measurement_ready_false_preserves (mkDriver notReadyBus) false
    notReadyAfter (by rfl)

/-- C4: `_check_crc8` returns `True` iff the candidate byte equals the
reference CRC-8 (initial value 0xFF, polynomial 0x31, bytes in order,
bits MSB-first, state reduced to 8 bits) of the data. -/
theorem check_crc8_iff_ref (c : Nat) (data : List Nat) (hlen : data.length = 6) :
    _check_crc8 c data = true ↔ c = refCrc8 data := by
  unfold _check_crc8
  rw [crc8_compute_eq_refCrc8]
  simp

set_option maxRecDepth 8000 in
/-- Witness for C4: the reference CRC-8 of the sample frame is 188, and
`_check_crc8` accepts it. -/
theorem check_crc8_iff_ref_witness : _check_crc8 188 goodFrame = true :=
  (check_crc8_iff_ref 188 goodFrame (by decide)).mpr (by decide)

/-- C5: the CRC-8 computation is a (deterministic) function of the data,
and validating a 6-byte frame against its own computed CRC-8 always
succeeds. -/
theorem check_crc8_roundtrip (data : List Nat) (hlen : data.length = 6) :
    _check_crc8 (crc8_compute data) data = true := by
  unfold _check_crc8
  simp

/-- Witness for C5: round-trip on a concrete frame. -/
theorem check_crc8_roundtrip_witness :
    _check_crc8 (crc8_compute [1, 2, 3, 4, 5, 6]) [1, 2, 3, 4, 5, 6] = true :=
  check_crc8_roundtrip [1, 2, 3, 4, 5, 6] (by decide)

/-- C6: on 20-bit raw values, the humidity formula `r * 100 / 0x100000`
is strictly increasing and lands in [0, 100), and the temperature
formula `r * 200 / 0x100000 - 50` lands in [-50, 150). -/
theorem decode_mono_bounded (r1 r2 : Nat) (h12 : r1 < r2) (h2 : r2 < 0x100000) :
    decode_humidity r1 < decode_humidity r2 ∧
    (0 ≤ decode_humidity r1 ∧ decode_humidity r1 < 100) ∧
    (0 ≤ decode_humidity r2 ∧ decode_humidity r2 < 100) ∧
    (-50 ≤ decode_temperature r1 ∧ decode_temperature r1 < 150) ∧
    (-50 ≤ decode_temperature r2 ∧ decode_temperature r2 < 150) := by
  have h1 : r1 < 0x100000 := lt_trans h12 h2
  exact ⟨decode_humidity_mono r1 r2 h12,
    ⟨decode_humidity_nonneg r1, decode_humidity_lt r1 h1⟩,
    ⟨decode_humidity_nonneg r2, decode_humidity_lt r2 h2⟩,
    ⟨decode_temperature_ge r1, decode_temperature_lt r1 h1⟩,
    ⟨decode_temperature_ge r2, decode_temperature_lt r2 h2⟩⟩

/-- Witness for C6 at raw values 3 and 5. -/
theorem decode_mono_bounded_witness :
    decode_humidity 3 < decode_humidity 5 ∧
    (0 ≤ decode_humidity 3 ∧ decode_humidity 3 < 100) ∧
    (0 ≤ decode_humidity 5 ∧ decode_humidity 5 < 100) ∧
    (-50 ≤ decode_temperature 3 ∧ decode_temperature 3 < 150) ∧
    (-50 ≤ decode_temperature 5 ∧ decode_temperature 5 < 150) :=
  decode_mono_bounded 3 5 (by decide) (by decide)

/-- C10: any frame accepted by `start_measurement_ready` — whatever its
bytes — yields, thanks to the 0xFFFFF masking of the assembled fields, a
stored humidity in [0, 100) and a stored temperature in [-50, 150). -/
theorem start_measurement_ready_success_bounds
    (s : DriverState) (crc_en : Bool) (s' : DriverState)
    (h : start_measurement_ready s crc_en = .ok (true, s')) :
    (0 ≤ s'._humidity ∧ s'._humidity < 100) ∧
      (-50 ≤ s'._temperature ∧ s'._temperature < 150) := by
  rcases smr_ok_cases h with ⟨hres, _⟩ | ⟨_, x, y, hh, ht⟩
  · simp at hres
  · have hx : x &&& 0xFFFFF < 0x100000 := by
      have hx0 : x &&& 0xFFFFF ≤ 0xFFFFF := Nat.and_le_right
      omega
    have hy : y &&& 0xFFFFF < 0x100000 := by
      have hy0 : y &&& 0xFFFFF ≤ 0xFFFFF := Nat.and_le_right
      omega
    rw [hh, ht]
    exact ⟨⟨decode_humidity_nonneg _, decode_humidity_lt _ hx⟩,
      ⟨decode_temperature_ge _, decode_temperature_lt _ hy⟩⟩

/-- Witness for C10: the bounds hold for the state produced by a
successful cycle on `goodBus`. -/
theorem start_measurement_ready_success_bounds_witness :
    (0 ≤ goodAfter._humidity ∧ goodAfter._humidity < 100) ∧
      (-50 ≤ goodAfter._temperature ∧ goodAfter._temperature < 150) :=
  start_measurement_ready_success_bounds (mkDriver goodBus) false goodAfter (by rfl)

/-- C1: for every successfully processed measurement frame,
`start_measurement_ready` assembles the 20-bit raw humidity from bytes 1–2
plus the high nibble of byte 3 and the 20-bit raw temperature from the low
nibble of byte 3 plus bytes 4–5, and stores humidity
`raw_h * 100 / 0x100000` and temperature `raw_t * 200 / 0x100000 - 50`. -/
theorem start_measurement_ready_decode
    (s : DriverState) (crc_en : Bool) (st a0 a1 a2 a3 a4 a5 : Nat) (rest : List Nat)
    (hw0 : s.bus.writeAt s.nw = true)
    (hr0 : s.bus.readAt s.nr = some [st])
    (hst : st &&& 0x08 ≠ 0)
    (hw1 : s.bus.writeAt (s.nw + 1) = true)
    (hr1 : s.bus.readAt (s.nr + 1) = some (a0 :: a1 :: a2 :: a3 :: a4 :: a5 :: rest))
    (hb : a0 &&& 0x80 = 0)
    (h1 : a1 < 256) (h2 : a2 < 256) (h3 : a3 < 256) (h4 : a4 < 256) (h5 : a5 < 256)
    (hcrc : crc_en = true → ∃ a6 t, rest = a6 :: t ∧
      _check_crc8 a6 [a0, a1, a2, a3, a4, a5] = true) :
    ∃ s', start_measurement_ready s crc_en = .ok (true, s') ∧
      s'._humidity = ((a1 * 4096 + a2 * 16 + a3 / 16 : Nat) : ℚ) * 100 / 0x100000 ∧
      s'._temperature =
        (((a3 % 16) * 65536 + a4 * 256 + a5 : Nat) : ℚ) * 200 / 0x100000 - 50 := by
  refine ⟨{ bus := s.bus, nr := s.nr + 2, nw := s.nw + 2,
            writes := s.writes ++ [CMD_STATUS, CMD_MEASUREMENT],
            _humidity :=
              decode_humidity ((((a1 <<< 8 ||| a2) <<< 4) ||| a3 >>> 4) &&& 0xFFFFF),
            _temperature :=
              decode_temperature (((((a3 &&& 0x0F) <<< 8) ||| a4) <<< 8 ||| a5) &&& 0xFFFFF) },
    ?_, ?_, ?_⟩
  · cases crc_en with
    | false =>
      simp [start_measurement_ready, _ready, _get_status_data, _write_command,
        i2c_writeto, _read_data, i2c_readfrom, pyIndex, Bind.bind, Except.bind,
        pure, Except.pure, hw0, hr0, hst, hw1, hr1, hb,
        CMD_MEASUREMENT_DATA_LEN, List.get?]
    | true =>
      obtain ⟨a6, t, rfl, hc⟩ := hcrc rfl
      simp [start_measurement_ready, _ready, _get_status_data, _write_command,
        i2c_writeto, _read_data, i2c_readfrom, pyIndex, Bind.bind, Except.bind,
        pure, Except.pure, hw0, hr0, hst, hw1, hr1, hb, hc,
        CMD_MEASUREMENT_DATA_CRC_LEN, List.get?]
  · simp [decode_humidity, assemble_humidity a1 a2 a3 h1 h2 h3]
  · simp [decode_temperature, assemble_temperature a3 a4 a5 h3 h4 h5]

/-- Witness for C1: decoding the sample frame on `goodBus`. -/
theorem start_measurement_ready_decode_witness :
    ∃ s', start_measurement_ready (mkDriver goodBus) false = .ok (true, s') ∧
      s'._humidity = ((0x1B * 4096 + 0x33 * 16 + 0x5A / 16 : Nat) : ℚ) * 100 / 0x100000 ∧
      s'._temperature =
        (((0x5A % 16) * 65536 + 0x9A * 256 + 0x3B : Nat) : ℚ) * 200 / 0x100000 - 50 :=
  start_measurement_ready_decode (mkDriver goodBus) false 0x08
    0x00 0x1B 0x33 0x5A 0x9A 0x3B [] rfl rfl (by decide) rfl rfl (by decide)
    (by decide) (by decide) (by decide) (by decide) (by decide) (by simp)

/-- C7: `begin` returns success without sending `CMD_INIT` when the first
status read already has the ready bit (0x08) set (so a repeated call on a
calibrated device resends nothing); otherwise it sends `CMD_INIT`,
re-reads the status byte, and succeeds exactly when the ready bit is then
set. -/
theorem begin_checks_before_init
    (s : DriverState) (st1 st2 : Nat)
    (hw : ∀ k, s.bus.writeAt k = true)
    (hr0 : s.bus.readAt s.nr = some [st1])
    (hr1 : s.bus.readAt (s.nr + 1) = some [st2]) :
    (st1 &&& 0x08 ≠ 0 →
      begin s = .ok (true,
        { bus := s.bus, nr := s.nr + 1, nw := s.nw + 1,
          writes := s.writes ++ [CMD_STATUS],
          _humidity := s._humidity, _temperature := s._temperature })) ∧
    (st1 &&& 0x08 = 0 →
      begin s = .ok (decide (st2 &&& 0x08 ≠ 0),
        { bus := s.bus, nr := s.nr + 2, nw := s.nw + 3,
          writes := s.writes ++ [CMD_STATUS, CMD_INIT, CMD_STATUS],
          _humidity := s._humidity, _temperature := s._temperature })) := by
  constructor
  · intro hst
    simp [begin, _init, _get_status_data, _write_command, i2c_writeto,
      _read_data, i2c_readfrom, Bind.bind, Except.bind, pure, Except.pure,
      hw, hr0, hst]
  · intro hst
    by_cases hst2 : st2 &&& 0x08 ≠ 0
    · simp [begin, _init, _get_status_data, _write_command, i2c_writeto,
        _read_data, i2c_readfrom, Bind.bind, Except.bind, pure, Except.pure,
        hw, hr0, hr1, hst, hst2]
    · simp only [not_not] at hst2
      simp [begin, _init, _get_status_data, _write_command, i2c_writeto,
        _read_data, i2c_readfrom, Bind.bind, Except.bind, pure, Except.pure,
        hw, hr0, hr1, hst, hst2]

/-- Witness for C7: on an already-calibrated device, `begin` succeeds
having written only the status command. -/
theorem begin_checks_before_init_witness :
    begin (mkDriver calibBus) = .ok (true, calibAfter) :=
  (begin_checks_before_init (mkDriver calibBus) 0x08 0x08
    (fun _ => rfl) rfl rfl).1 (by decide)

/-- C8: calling `start_measurement_ready` on a freshly constructed,
never-calibrated driver returns `False` and leaves the stored humidity
and temperature at their construction defaults (0.0, 0.0). -/
theorem start_measurement_ready_default_preserved
    (b : Bus) (crc_en : Bool) (st : Nat)
    (hw : b.writeAt 0 = true)
    (hr : b.readAt 0 = some [st])
    (hst : st &&& 0x08 = 0) :
    ∃ s', start_measurement_ready (mkDriver b) crc_en = .ok (false, s') ∧
      s'._humidity = 0 ∧ s'._temperature = 0 := by
  refine ⟨{ bus := b, nr := 1, nw := 1, writes := [CMD_STATUS],
            _humidity := 0, _temperature := 0 }, ?_, rfl, rfl⟩
  simp [start_measurement_ready, _ready, _get_status_data, _write_command,
    i2c_writeto, _read_data, i2c_readfrom, mkDriver, Bind.bind, Except.bind,
    pure, Except.pure, hw, hr, hst]

/-- Witness for C8: a run against `notReadyBus`. -/
theorem start_measurement_ready_default_preserved_witness :
    ∃ s', start_measurement_ready (mkDriver notReadyBus) false = .ok (false, s') ∧
      s'._humidity = 0 ∧ s'._temperature = 0 :=
  start_measurement_ready_default_preserved notReadyBus false 0 rfl rfl rfl

/-- C9: when the bus read of the status byte fails, `_get_status_data`
returns 0, and the readiness check consequently reports the device as
not ready instead of propagating the transport error. -/
theorem get_status_data_read_failure
    (s : DriverState)
    (hw : s.bus.writeAt s.nw = true)
    (hr : s.bus.readAt s.nr = none) :
    _get_status_data s = .ok (0,
      { bus := s.bus, nr := s.nr, nw := s.nw + 1,
        writes := s.writes ++ [CMD_STATUS],
        _humidity := s._humidity, _temperature := s._temperature }) ∧
    _ready s = .ok (false,
      { bus := s.bus, nr := s.nr, nw := s.nw + 1,
        writes := s.writes ++ [CMD_STATUS],
        _humidity := s._humidity, _temperature := s._temperature }) := by
  constructor
  · simp [_get_status_data, i2c_writeto, _read_data, i2c_readfrom,
      Bind.bind, Except.bind, pure, Except.pure, hw, hr]
  · simp [_ready, _get_status_data, i2c_writeto, _read_data, i2c_readfrom,
      Bind.bind, Except.bind, pure, Except.pure, hw, hr]

/-- Witness for C9: a failed status read on `readFailBus`. -/
theorem get_status_data_read_failure_witness :
    _get_status_data (mkDriver readFailBus) = .ok (0,
      { bus := readFailBus, nr := 0, nw := 1, writes := [CMD_STATUS],
        _humidity := 0, _temperature := 0 }) ∧
    _ready (mkDriver readFailBus) = .ok (false,
      { bus := readFailBus, nr := 0, nw := 1, writes := [CMD_STATUS],
        _humidity := 0, _temperature := 0 }) :=
  get_status_data_read_failure (mkDriver readFailBus) rfl rfl

/-- C3 counterexample: a bus-transport failure during `reset` is not
turned into a success/failure return value — the `OSError` raised by the
transport propagates to the caller. -/
theorem reset_write_failure_raises :
    reset (mkDriver allFailBus) = .error .osError := rfl

/-- C3 as amended: bus read failures during the status reads are caught
inside `_read_data` and surface as status 0, so `begin` returns `False`
without raising and leaves the stored humidity and temperature untouched;
bus write failures, by contrast, raise to the caller (see the
counterexample). -/
theorem begin_read_failures_return_false
    (s : DriverState)
    (hw : ∀ k, s.bus.writeAt k = true)
    (hr : ∀ k, s.bus.readAt k = none) :
    ∃ s', begin s = .ok (false, s') ∧
      s'._humidity = s._humidity ∧ s'._temperature = s._temperature := by
  refine ⟨{ bus := s.bus, nr := s.nr, nw := s.nw + 3,
            writes := s.writes ++ [CMD_STATUS, CMD_INIT, CMD_STATUS],
            _humidity := s._humidity, _temperature := s._temperature },
    ?_, rfl, rfl⟩
  simp [begin, _init, _get_status_data, _write_command, i2c_writeto,
    _read_data, i2c_readfrom, Bind.bind, Except.bind, pure, Except.pure,
    hw, hr]

/-- Witness for the amended C3: `begin` on `readFailBus`. -/
theorem begin_read_failures_return_false_witness :
    ∃ s', begin (mkDriver readFailBus) = .ok (false, s') ∧
      s'._humidity = (mkDriver readFailBus)._humidity ∧
      s'._temperature = (mkDriver readFailBus)._temperature :=
  begin_read_failures_return_false (mkDriver readFailBus)
    (fun _ => rfl) (fun _ => rfl)

end AHT20
